import Mathlib

/-!
Shallow embedding of the discovery-to-digest pipeline in `src/main.py`
(search GitHub repositories, fetch each README, summarize with Gemini,
deliver to a Discord webhook).

External services (GitHub HTTP responses, the JSON parser, the Gemini
model, the webhook) are modelled as an explicit environment `Env`; every
pure computation (truncation, prompt construction, message composition,
`textwrap.dedent`, the orchestration loop of `main`) is translated
directly from the Python source.
-/

namespace RikochiExplore

/-- A repository item from the GitHub search response
(fields read by `main`: `full_name`, `stargazers_count`, `description`,
`html_url`; `description` may be JSON null, hence `Option`). -/
structure Repo where
  full_name : String
  stargazers_count : Nat
  description : Option String
  html_url : String
deriving Repr, DecidableEq

/-- An HTTP response as observed by `github_request`: final status code
and body text. -/
structure HttpResp where
  status : Nat
  body : String
deriving Repr, DecidableEq

/-- The exception raised by `requests.Response.raise_for_status`
(raised exactly for 4xx/5xx status codes). -/
inductive HttpError where
  | httpError (status : Nat) (body : String)
deriving Repr, DecidableEq

/-- Uncaught exceptions that can terminate the run of `main`:
an HTTPError from the search request, a failure of
`resp.json()["items"]` extraction, a `TypeError` from unpacking
`full_name.split("/")` into two arguments, and an exception escaping
`model.generate_content`. -/
inductive RunError where
  | search (status : Nat) (body : String)
  | parse (body : String)
  | unpack (full_name : String)
  | gen (msg : String)
deriving Repr, DecidableEq

/-- The external world of one run: the search response and its parsed
`items` (`none` when `resp.json()["items"]` would fail), the README
response per `(owner, repo)`, and the Gemini `generate_content` outcome
per prompt (`.error` = exception raised; `.ok none` = `response.text`
is `None`). -/
structure Env where
  searchResp : HttpResp
  searchItems : Option (List Repo)
  readmeResp : String → String → HttpResp
  generate : String → Except String (Option String)

/-- `TOP_N = 2` in `main.py`: how many top candidates are summarized. -/
def TOP_N : Nat := 2

/-- The hardcoded search query of `main`. -/
def query : String := "autonomous agent language:Python stars:>200"

/-- Core of `github_request`: `resp.raise_for_status()` raises
`HTTPError` for 4xx/5xx responses; otherwise the raw body is returned
(`accept_raw` mode returns `resp.text`). -/
def github_request_raw (resp : HttpResp) : Except HttpError String :=
  if 400 ≤ resp.status ∧ resp.status < 600 then
    .error (.httpError resp.status resp.body)
  else
    .ok resp.body

/-- `search_repos`: one GET of `/search/repositories`; an HTTP error
propagates (uncaught in `main`), otherwise `resp.json()["items"]` is
returned (its failure also propagates). -/
def search_repos (env : Env) : Except RunError (List Repo) :=
  match github_request_raw env.searchResp with
  | .error (.httpError st b) => .error (.search st b)
  | .ok _ =>
    match env.searchItems with
    | some items => .ok items
    | none => .error (.parse env.searchResp.body)

/-- `fetch_readme`: GET `/repos/{owner}/{repo}/readme` in raw mode;
`except requests.HTTPError` maps any 4xx/5xx response to `None`. -/
def fetch_readme (env : Env) (owner repo : String) : Option String :=
  match github_request_raw (env.readmeResp owner repo) with
  | .error _ => none
  | .ok text => some text

/-- Python slicing `s[:n]`: the first `n` characters of `s`. -/
def pySlice (s : String) (n : Nat) : String := String.mk (s.data.take n)

/-- Characters stripped by Python's `str.strip()` (whitespace). -/
def isPySpace (c : Char) : Bool := c.isWhitespace

/-- Python `str.strip()`: remove leading and trailing whitespace. -/
def pyStrip (s : String) : String :=
  String.mk (((s.data.dropWhile isPySpace).reverse.dropWhile isPySpace).reverse)

/-- Split a character list at every occurrence of the character `c`
(Python `str.split(sep)` for a one-character separator). -/
def splitOnChar (c : Char) : List Char → List (List Char)
  | [] => [[]]
  | x :: xs =>
    let r := splitOnChar c xs
    if x = c then [] :: r
    else
      match r with
      | y :: ys => (x :: y) :: ys
      | [] => [[x]]

/-- Python `s.split(sep)` for a one-character separator `sep`. -/
def pySplit (s : String) (sep : Char) : List String :=
  (splitOnChar sep s.data).map String.mk

/-- Python `sep.join(lines)`. -/
def joinWith (sep : String) : List String → String
  | [] => ""
  | [x] => x
  | x :: y :: ys => x ++ sep ++ joinWith sep (y :: ys)

/-- `max_chars = 5000` in `summarize_with_gemini`. -/
def max_chars : Nat := 5000

/-- The truncation marker appended to an over-long README before it is
sent to Gemini. -/
def geminiCutMarker : String := "\n...\n(※長いので一部のみ要約)"

/-- The truncation marker appended by `send_to_discord` to an over-long
message. -/
def discordCutMarker : String := "\n...(文字数制限でカット)"

/-- The input-size cap of `summarize_with_gemini`:
`readme_text[:max_chars]` plus the marker when `len > max_chars`. -/
def truncateReadme (readme_text : String) : String :=
  if readme_text.length > max_chars then
    pySlice readme_text max_chars ++ geminiCutMarker
  else
    readme_text

/-- Prompt template text before `{full_name}`. -/
def promptHeader : String :=
  "\nあなたは GitHub リポジトリの README を簡潔に要約するアシスタントです。\n\n以下の README を読み、\n- 何をするプロジェクトか\n- 主な機能\n- 技術的なポイント\n- Rikochi AI（自律AIの設計や実装）の参考になりそうな点\nを **やさしい日本語で5〜8行程度** にまとめてください。\n\nリポジトリ名: "

/-- Prompt template text between `{full_name}` and `{readme_text}`. -/
def promptMiddle : String := "\n\nREADME:\n----------------------\n"

/-- Prompt template text after `{readme_text}`. -/
def promptFooter : String := "\n----------------------\n"

/-- The f-string prompt of `summarize_with_gemini` as a function of the
interpolated values. -/
def buildPrompt (full_name readme_text : String) : String :=
  promptHeader ++ full_name ++ promptMiddle ++ readme_text ++ promptFooter

/-- The exact prompt string `summarize_with_gemini` sends to Gemini for
a given repository name and (untruncated) README text. -/
def geminiPrompt (full_name readme_text : String) : String :=
  buildPrompt full_name (truncateReadme readme_text)

/-- `summarize_with_gemini`: truncate the README, build the prompt, call
`model.generate_content` (whose exception propagates), and return
`(response.text or "").strip()`. -/
def summarize_with_gemini (env : Env) (full_name readme_text : String) :
    Except String String :=
  let readme_text := truncateReadme readme_text
  let prompt := buildPrompt full_name readme_text
  match env.generate prompt with
  | .error e => .error e
  | .ok t => .ok (pyStrip (t.getD ""))

/-- Characters counted as indentation by `textwrap.dedent`. -/
def isSpaceOrTab (c : Char) : Bool := c = ' ' || c = '\t'

/-- Longest common prefix of two character lists (the net effect of the
margin-merging loop in `textwrap.dedent`). -/
def commonLead : List Char → List Char → List Char
  | x :: xs, y :: ys => if x = y then x :: commonLead xs ys else []
  | _, _ => []

/-- `textwrap.dedent`: whitespace-only lines are normalized to empty,
the common leading space/tab margin of the remaining lines is computed,
and that margin is removed from the start of every line carrying it. -/
def dedent (text : String) : String :=
  let lines := splitOnChar '\n' text.data
  let norm := lines.map (fun l => if !l.isEmpty && l.all isSpaceOrTab then [] else l)
  let withContent := norm.filter (fun l => !(l.dropWhile isSpaceOrTab).isEmpty)
  let indents := withContent.map (fun l => l.takeWhile isSpaceOrTab)
  let margin :=
    match indents with
    | [] => ([] : List Char)
    | i :: is => is.foldl commonLead i
  let stripped := norm.map (fun l => if margin.isPrefixOf l then l.drop margin.length else l)
  joinWith "\n" (stripped.map String.mk)

/-- The f-string message template of `main` before `textwrap.dedent`,
as a function of the interpolated values (indentation and blank lines
exactly as in the source). -/
def composeRaw (rank : Nat) (full_name : String) (stars : Nat)
    (url desc summary : String) : String :=
  "\n        🏅 ランク " ++ toString rank ++
  "\n\n        📘 **" ++ full_name ++
  "**\n        ⭐ Stars: " ++ toString stars ++
  "\n        🔗 " ++ url ++
  "\n\n        📝 説明:\n        " ++ desc ++
  "\n\n        🧠 README 要約 (Gemini):\n        " ++ summary ++
  "\n        "

/-- The composed digest message of `main`:
`textwrap.dedent(f-string).strip()`, with
`desc = repo["description"] or ""`. -/
def composeMessage (rank : Nat) (repo : Repo) (summary : String) : String :=
  let desc := repo.description.getD ""
  pyStrip (dedent (composeRaw rank repo.full_name repo.stargazers_count
    repo.html_url desc summary))

/-- The JSON payload `send_to_discord` posts to the webhook. -/
structure DiscordPayload where
  content : String
  username : String
deriving Repr, DecidableEq

/-- `send_to_discord`: contents longer than 1900 characters are cut to
the first 1900 characters plus the marker; the payload carries the fixed
display name. (A non-2xx webhook status is only printed, never raised.) -/
def send_to_discord (content : String) : DiscordPayload :=
  let content :=
    if content.length > 1900 then pySlice content 1900 ++ discordCutMarker
    else content
  ⟨content, "rikochi_repo"⟩

/-- Python truthiness of the fetched README as used by
`if not readme: continue` — `None` and the empty string are both falsy. -/
def pyFalsy (readme : Option String) : Bool :=
  match readme with
  | none => true
  | some s => decide (s = "")

/-- Observable per-candidate outcomes of the loop in `main`. -/
inductive Event where
  | skipped (rank : Nat) (full_name : String)
  | delivered (rank : Nat) (payload : String)
deriving Repr, DecidableEq

/-- Result of one run of `main`: the per-candidate events that happened,
and the uncaught exception (if any) that terminated the run early. -/
structure RunOutcome where
  events : List Event
  fatal : Option RunError
deriving Repr, DecidableEq

/-- What one iteration of the loop body of `main` does for a candidate. -/
inductive StepResult where
  | skip
  | deliver (payload : String)
  | fatal (e : RunError)
deriving Repr, DecidableEq

/-- The loop body of `main` for one candidate: split `full_name`, fetch
the README, skip when it is falsy, otherwise summarize (an exception
here is fatal: `main` has no try/except around this) and deliver the
composed, truncated message. -/
def processOne (env : Env) (rank : Nat) (repo : Repo) : StepResult :=
  match pySplit repo.full_name '/' with
  | [owner, name] =>
    let readme := fetch_readme env owner name
    if pyFalsy readme then .skip
    else
      match summarize_with_gemini env repo.full_name (readme.getD "") with
      | .error msg => .fatal (.gen msg)
      | .ok summary =>
        .deliver (send_to_discord (composeMessage rank repo summary)).content
  | _ => .fatal (.unpack repo.full_name)

/-- The `for rank, repo in enumerate(repos[:TOP_N], start=1)` loop of
`main`: a fatal step aborts the run (the exception propagates out of
`main`), a skip or delivery is recorded and the loop continues. -/
def processCandidates (env : Env) : List (Nat × Repo) → RunOutcome
  | [] => ⟨[], none⟩
  | (rank, repo) :: rest =>
    match processOne env rank repo with
    | .skip =>
      let r := processCandidates env rest
      ⟨.skipped rank repo.full_name :: r.events, r.fatal⟩
    | .deliver payload =>
      let r := processCandidates env rest
      ⟨.delivered rank payload :: r.events, r.fatal⟩
    | .fatal e => ⟨[], some e⟩

/-- `main`: search once (a failure there aborts with nothing delivered),
then process the top `TOP_N` candidates in order with 1-based ranks. -/
def main (env : Env) : RunOutcome :=
  match search_repos env with
  | .error e => ⟨[], some e⟩
  | .ok repos => processCandidates env (List.enumFrom 1 (repos.take TOP_N))

/-- The ranks of the messages actually delivered in a run, in delivery
order. -/
def deliveredRanks (o : RunOutcome) : List Nat :=
  o.events.filterMap (fun e =>
    match e with
    | .delivered r _ => some r
    | .skipped _ _ => none)

/-- Number of delivery attempts in a run. -/
def deliveredCount (o : RunOutcome) : Nat := (deliveredRanks o).length

/-- Whether a candidate's documentation is non-absent, i.e.
`fetch_readme` returns a text (possibly empty) rather than `None`. -/
def docNonAbsent (env : Env) (repo : Repo) : Bool :=
  match pySplit repo.full_name '/' with
  | [owner, name] => (fetch_readme env owner name).isSome
  | _ => false

/-- Number of discovered candidates with non-absent documentation. -/
def nonAbsentCount (env : Env) (repos : List Repo) : Nat :=
  repos.countP (docNonAbsent env)

/-- The candidate list produced by discovery (empty when the search
response could not be parsed). -/
def discoveredItems (env : Env) : List Repo :=
  env.searchItems.getD []

/-! ## Basic facts about the string model -/

theorem string_data_length (s : String) : s.data.length = s.length := rfl

theorem pySlice_length (s : String) (n : Nat) :
    (pySlice s n).length = min n s.length := by
  simp only [pySlice, String.length_mk, List.length_take, string_data_length]

/-! ## Theorems about the claims -/

/-- Claim C3: a message of length at most 1900 is delivered to the
webhook unchanged (no truncation marker); a longer message is delivered
as exactly its first 1900 characters followed by the fixed marker. -/
theorem discord_truncation_policy (content : String) :
    (content.length ≤ 1900 →
      send_to_discord content = ⟨content, "rikochi_repo"⟩) ∧
    (1900 < content.length →
      send_to_discord content =
        ⟨pySlice content 1900 ++ discordCutMarker, "rikochi_repo"⟩) := by
  constructor
  · intro h
    simp only [send_to_discord]
    rw [if_neg (by omega)]
  · intro h
    simp only [send_to_discord]
    rw [if_pos h]

/-- Witness for C3: a short message goes through unchanged, a
1901-character message is cut at 1900 characters plus the marker. -/
theorem discord_truncation_policy_witness :
    send_to_discord "abc" = ⟨"abc", "rikochi_repo"⟩ ∧
    send_to_discord (String.mk (List.replicate 1901 'a')) =
      ⟨pySlice (String.mk (List.replicate 1901 'a')) 1900 ++ discordCutMarker,
       "rikochi_repo"⟩ :=
  ⟨(discord_truncation_policy "abc").1 (by decide),
   (discord_truncation_policy (String.mk (List.replicate 1901 'a'))).2
     (by simp only [String.length_mk, List.length_replicate]; omega)⟩

/-- Claim C10: for a message longer than 1900 characters the delivered
payload has length exactly 1900 plus the marker length, which is
strictly greater than 1900: the cap applies before the marker is
appended, not to the final payload. -/
theorem discord_payload_length (content : String) (h : 1900 < content.length) :
    (send_to_discord content).content.length = 1900 + discordCutMarker.length ∧
    1900 < (send_to_discord content).content.length := by
  have hc : (send_to_discord content).content =
      pySlice content 1900 ++ discordCutMarker := by
    simp only [send_to_discord]
    rw [if_pos h]
  have hl : (pySlice content 1900).length = 1900 := by
    rw [pySlice_length]
    omega
  have hm : discordCutMarker.length = 15 := by decide
  refine ⟨?_, ?_⟩ <;> rw [hc, String.length_append, hl]
  omega

/-- Witness for C10 at a concrete 1901-character message: the delivered
payload is 1915 characters long. -/
theorem discord_payload_length_witness :
    (send_to_discord (String.mk (List.replicate 1901 'b'))).content.length =
      1900 + discordCutMarker.length ∧
    1900 < (send_to_discord (String.mk (List.replicate 1901 'b'))).content.length :=
  discord_payload_length _
    (by simp only [String.length_mk, List.length_replicate]; omega)

/-- Claim C4: documentation longer than 5000 characters reaches Gemini
as exactly its first 5000 characters plus the fixed truncation marker,
embedded at the README slot of the fixed prompt template; documentation
of at most 5000 characters is embedded unmodified. -/
theorem gemini_input_truncation (full_name t : String) :
    (max_chars < t.length →
      geminiPrompt full_name t =
        promptHeader ++ full_name ++ promptMiddle ++
          (pySlice t max_chars ++ geminiCutMarker) ++ promptFooter) ∧
    (t.length ≤ max_chars →
      geminiPrompt full_name t =
        promptHeader ++ full_name ++ promptMiddle ++ t ++ promptFooter) := by
  constructor
  · intro h
    simp only [geminiPrompt, buildPrompt, truncateReadme]
    rw [if_pos h]
  · intro h
    simp only [geminiPrompt, buildPrompt, truncateReadme]
    rw [if_neg (by omega)]

/-- Witness for C4: a 5001-character README is truncated, a short
README is passed through unmodified. -/
theorem gemini_input_truncation_witness :
    geminiPrompt "o/r" (String.mk (List.replicate 5001 'r')) =
      promptHeader ++ "o/r" ++ promptMiddle ++
        (pySlice (String.mk (List.replicate 5001 'r')) max_chars ++
          geminiCutMarker) ++ promptFooter ∧
    geminiPrompt "o/r" "short doc" =
      promptHeader ++ "o/r" ++ promptMiddle ++ "short doc" ++ promptFooter :=
  ⟨(gemini_input_truncation "o/r" _).1
     (by simp only [String.length_mk, List.length_replicate, max_chars]; omega),
   (gemini_input_truncation "o/r" "short doc").2 (by decide)⟩

/-- Claim C9: whenever `model.generate_content` returns (rather than
raising), the summarizer returns the generated text with `None` coerced
to the empty string and whitespace stripped — also when the result is
empty. -/
theorem gemini_result_normalized (env : Env) (full_name t : String)
    (r : Option String)
    (h : env.generate (geminiPrompt full_name t) = .ok r) :
    summarize_with_gemini env full_name t = .ok (pyStrip (r.getD "")) := by
  simp only [summarize_with_gemini]
  simp only [geminiPrompt] at h
  rw [h]

/-- A Gemini stub whose `response.text` is `None`. -/
def envGenNone : Env :=
  ⟨⟨200, "ok"⟩, some [], fun _ _ => ⟨200, ""⟩, fun _ => .ok none⟩

/-- Witness for C9: a `None` generation result is returned as the empty
string. -/
theorem gemini_result_normalized_witness :
    summarize_with_gemini envGenNone "a/x" "doc" = .ok "" :=
  gemini_result_normalized envGenNone "a/x" "doc" none rfl

/-! ## Step lemmas for the orchestration loop -/

theorem processOne_skip_of_falsy (env : Env) (rank : Nat) (repo : Repo)
    (owner name : String)
    (hsplit : pySplit repo.full_name '/' = [owner, name])
    (hf : pyFalsy (fetch_readme env owner name) = true) :
    processOne env rank repo = .skip := by
  simp only [processOne, hsplit, hf, if_true]

theorem processOne_fatal_of_generr (env : Env) (rank : Nat) (repo : Repo)
    (owner name s msg : String)
    (hsplit : pySplit repo.full_name '/' = [owner, name])
    (hf : fetch_readme env owner name = some s)
    (hs : s ≠ "")
    (hg : env.generate (geminiPrompt repo.full_name s) = .error msg) :
    processOne env rank repo = .fatal (.gen msg) := by
  have hsum : summarize_with_gemini env repo.full_name s = .error msg := by
    simp only [summarize_with_gemini]
    simp only [geminiPrompt] at hg
    rw [hg]
  have hfalsy : pyFalsy (some s) = false := by simp [pyFalsy, hs]
  simp only [processOne, hsplit, hf, hfalsy, Bool.false_eq_true, if_false,
    Option.getD_some, hsum]

theorem processCandidates_cons_skip (env : Env) (rank : Nat) (repo : Repo)
    (rest : List (Nat × Repo))
    (h : processOne env rank repo = .skip) :
    processCandidates env ((rank, repo) :: rest) =
      ⟨.skipped rank repo.full_name :: (processCandidates env rest).events,
       (processCandidates env rest).fatal⟩ := by
  simp only [processCandidates, h]

theorem processCandidates_cons_fatal (env : Env) (rank : Nat) (repo : Repo)
    (rest : List (Nat × Repo)) (e : RunError)
    (h : processOne env rank repo = .fatal e) :
    processCandidates env ((rank, repo) :: rest) = ⟨[], some e⟩ := by
  simp only [processCandidates, h]

/-- Claim C7: an HTTP-error response to the discovery search aborts the
whole run with the surfaced upstream error before any candidate is
processed — no events, nothing delivered, no retry. -/
theorem search_failure_aborts (env : Env)
    (h4 : 400 ≤ env.searchResp.status) (h6 : env.searchResp.status < 600) :
    main env =
      ⟨[], some (.search env.searchResp.status env.searchResp.body)⟩ := by
  simp only [main, search_repos, github_request_raw]
  rw [if_pos ⟨h4, h6⟩]

/-- A discovery provider that answers the search with a 500. -/
def envSearch500 : Env :=
  ⟨⟨500, "upstream down"⟩, some [⟨"a/x", 500, some "d1", "u1"⟩],
   fun _ _ => ⟨200, "D"⟩, fun _ => .ok (some "S")⟩

/-- Witness for C7 at a concrete failing search response. -/
theorem search_failure_aborts_witness :
    main envSearch500 = ⟨[], some (.search 500 "upstream down")⟩ :=
  search_failure_aborts envSearch500 (by decide) (by decide)

/-- Claim C8: a documentation-provider error response (404 or any
4xx/5xx) is mapped to `None` (Absent) instead of propagating; the
candidate is skipped and the loop continues with the remaining
candidates. -/
theorem readme_error_isolated (env : Env) (rank : Nat) (repo : Repo)
    (rest : List (Nat × Repo)) (owner name : String)
    (hsplit : pySplit repo.full_name '/' = [owner, name])
    (h4 : 400 ≤ (env.readmeResp owner name).status)
    (h6 : (env.readmeResp owner name).status < 600) :
    fetch_readme env owner name = none ∧
    processCandidates env ((rank, repo) :: rest) =
      ⟨.skipped rank repo.full_name :: (processCandidates env rest).events,
       (processCandidates env rest).fatal⟩ := by
  have hf : fetch_readme env owner name = none := by
    simp only [fetch_readme, github_request_raw]
    rw [if_pos ⟨h4, h6⟩]
  exact ⟨hf, processCandidates_cons_skip _ _ _ _
    (processOne_skip_of_falsy _ _ _ _ _ hsplit (by rw [hf]; rfl))⟩

/-- A documentation provider that answers every README request 404. -/
def envReadme404 : Env :=
  ⟨⟨200, "ok"⟩, some [⟨"a/x", 500, some "d1", "u1"⟩],
   fun _ _ => ⟨404, "Not Found"⟩, fun _ => .ok (some "S")⟩

/-- Witness for C8 at a concrete 404 README response. -/
theorem readme_error_isolated_witness :
    fetch_readme envReadme404 "a" "x" = none ∧
    processCandidates envReadme404 [(1, ⟨"a/x", 500, some "d1", "u1"⟩)] =
      ⟨[Event.skipped 1 "a/x"], none⟩ := by
  have h := readme_error_isolated envReadme404 1 ⟨"a/x", 500, some "d1", "u1"⟩
    [] "a" "x" (by decide) (by decide) (by decide)
  exact ⟨h.1, h.2⟩

/-- A documentation provider that returns status 200 with empty text. -/
def envEmptyReadme : Env :=
  ⟨⟨200, "ok"⟩, some [⟨"a/x", 500, some "d1", "u1"⟩],
   fun _ _ => ⟨200, ""⟩, fun _ => .ok (some "S")⟩

/-- Counterexample to claim C5: the README fetch succeeds with empty
text (non-absent), yet the candidate is skipped and nothing is
summarized or delivered — `if not readme` treats the empty string like
`None`. -/
theorem empty_readme_cex :
    fetch_readme envEmptyReadme "a" "x" = some "" ∧
    main envEmptyReadme = ⟨[Event.skipped 1 "a/x"], none⟩ ∧
    deliveredRanks (main envEmptyReadme) = [] := by decide

/-- Amended C5: a candidate whose documentation fetch succeeds with
empty text is skipped exactly like an absent-documentation candidate
(the loop's skip test is Python truthiness, conflating empty text with
absence); processing continues with the next candidate. -/
theorem empty_readme_skipped (env : Env) (rank : Nat) (repo : Repo)
    (rest : List (Nat × Repo)) (owner name : String)
    (hsplit : pySplit repo.full_name '/' = [owner, name])
    (hf : fetch_readme env owner name = some "") :
    processCandidates env ((rank, repo) :: rest) =
      ⟨.skipped rank repo.full_name :: (processCandidates env rest).events,
       (processCandidates env rest).fatal⟩ :=
  processCandidates_cons_skip _ _ _ _
    (processOne_skip_of_falsy _ _ _ _ _ hsplit (by rw [hf]; rfl))

/-- Witness for the amended C5 at a concrete empty-README response. -/
theorem empty_readme_skipped_witness :
    processCandidates envEmptyReadme [(1, ⟨"a/x", 500, some "d1", "u1"⟩)] =
      ⟨[Event.skipped 1 "a/x"], none⟩ :=
  empty_readme_skipped envEmptyReadme 1 ⟨"a/x", 500, some "d1", "u1"⟩ []
    "a" "x" (by decide) (by decide)

/-- Two healthy candidates; Gemini raises on candidate 1's prompt and
would succeed on candidate 2's. -/
def envGenThrows : Env :=
  ⟨⟨200, "ok"⟩,
   some [⟨"a/x", 500, some "d1", "u1"⟩, ⟨"b/y", 300, some "d2", "u2"⟩],
   fun owner _ => if owner = "a" then ⟨200, "D1"⟩ else ⟨200, "D2"⟩,
   fun p => if p = geminiPrompt "a/x" "D1" then .error "quota"
            else .ok (some "S2")⟩

set_option maxRecDepth 4000 in
/-- Counterexample to claim C1: candidate 1's generative call throws and
candidate 2's would succeed, yet the exception is not caught at the
per-candidate boundary — the run aborts and candidate 2's message is
never delivered. -/
theorem gen_exception_cex :
    envGenThrows.generate (geminiPrompt "a/x" "D1") = .error "quota" ∧
    envGenThrows.generate (geminiPrompt "b/y" "D2") = .ok (some "S2") ∧
    main envGenThrows = ⟨[], some (.gen "quota")⟩ ∧
    deliveredRanks (main envGenThrows) = [] := by
  refine ⟨rfl, rfl, ?_, ?_⟩ <;> decide

/-- Amended C1: exceptions raised during the Summarizing, Composing or
Delivering stage are NOT caught per-candidate — `main` has no
try/except around the loop body, so the first exception from the
generative call aborts the run and no later candidate is processed or
delivered; only the documentation-fetch stage (HTTPError mapped to
`None`) is isolated per-candidate. -/
theorem gen_exception_aborts_run (env : Env) (rank : Nat) (repo : Repo)
    (rest : List (Nat × Repo)) (owner name s msg : String)
    (hsplit : pySplit repo.full_name '/' = [owner, name])
    (hf : fetch_readme env owner name = some s)
    (hs : s ≠ "")
    (hg : env.generate (geminiPrompt repo.full_name s) = .error msg) :
    processCandidates env ((rank, repo) :: rest) = ⟨[], some (.gen msg)⟩ :=
  processCandidates_cons_fatal _ _ _ _ _
    (processOne_fatal_of_generr _ _ _ _ _ _ _ hsplit hf hs hg)

set_option maxRecDepth 4000 in
/-- Witness for the amended C1: with candidate 2 still pending, the
exception at candidate 1 ends the run with no events at all. -/
theorem gen_exception_aborts_run_witness :
    processCandidates envGenThrows
      [(1, ⟨"a/x", 500, some "d1", "u1"⟩),
       (2, ⟨"b/y", 300, some "d2", "u2"⟩)] =
      ⟨[], some (.gen "quota")⟩ :=
  gen_exception_aborts_run envGenThrows 1 ⟨"a/x", 500, some "d1", "u1"⟩
    [(2, ⟨"b/y", 300, some "d2", "u2"⟩)] "a" "x" "D1" "quota"
    (by decide) (by decide) (by decide) rfl

/-! ## Rank and counting lemmas for the loop -/

theorem processCandidates_cons_deliver (env : Env) (rank : Nat) (repo : Repo)
    (rest : List (Nat × Repo)) (p : String)
    (h : processOne env rank repo = .deliver p) :
    processCandidates env ((rank, repo) :: rest) =
      ⟨.delivered rank p :: (processCandidates env rest).events,
       (processCandidates env rest).fatal⟩ := by
  simp only [processCandidates, h]

theorem deliveredRanks_processCandidates (env : Env) (l : List (Nat × Repo)) :
    List.Sublist (deliveredRanks (processCandidates env l)) (l.map Prod.fst) := by
  induction l with
  | nil => simp [processCandidates, deliveredRanks]
  | cons hd tl ih =>
    obtain ⟨rank, repo⟩ := hd
    simp only [deliveredRanks] at ih
    cases hstep : processOne env rank repo with
    | skip =>
      rw [processCandidates_cons_skip _ _ _ _ hstep]
      simp only [deliveredRanks, List.filterMap_cons, List.map_cons]
      exact ih.cons _
    | deliver p =>
      rw [processCandidates_cons_deliver _ _ _ _ _ hstep]
      simp only [deliveredRanks, List.filterMap_cons, List.map_cons]
      exact ih.cons₂ _
    | fatal e =>
      rw [processCandidates_cons_fatal _ _ _ _ _ hstep]
      simp [deliveredRanks]

theorem map_fst_enumFrom {α : Type _} (n : Nat) (l : List α) :
    (List.enumFrom n l).map Prod.fst = List.range' n l.length := by
  induction l generalizing n with
  | nil => rfl
  | cons x xs ih =>
    simp only [List.enumFrom_cons, List.map_cons, List.length_cons,
      List.range'_succ, ih]

/-- A discovery provider whose first candidate has no README while the
second does. -/
def envFirstAbsent : Env :=
  ⟨⟨200, "ok"⟩,
   some [⟨"a/x", 500, some "d1", "u1"⟩, ⟨"b/y", 300, some "d2", "u2"⟩],
   fun owner _ => if owner = "a" then ⟨404, "Not Found"⟩ else ⟨200, "D2"⟩,
   fun _ => .ok (some "S2")⟩

/-- Counterexample to claim C2: with candidate 1 skipped for absent
documentation, exactly one candidate has documentation, yet the (sole)
delivered rank is 2, not the contiguous 1-based sequence [1] — ranks
are not renumbered after a skip. -/
theorem rank_contiguity_cex :
    deliveredRanks (main envFirstAbsent) = [2] ∧
    nonAbsentCount envFirstAbsent (discoveredItems envFirstAbsent) = 1 ∧
    deliveredRanks (main envFirstAbsent) ≠
      List.range' 1 (nonAbsentCount envFirstAbsent
        (discoveredItems envFirstAbsent)) := by decide

/-- Amended C2: each delivered message carries the candidate's 1-based
position in the top-N slice; the delivered ranks form a strictly
increasing subsequence of 1..TOP_N (a skipped candidate consumes its
rank, leaving a gap rather than renumbering the later candidates). -/
theorem delivered_ranks_subsequence (env : Env) :
    List.Sublist (deliveredRanks (main env)) (List.range' 1 TOP_N) := by
  unfold main
  cases h : search_repos env with
  | error e => simp [deliveredRanks]
  | ok repos =>
    have h1 := deliveredRanks_processCandidates env
      (List.enumFrom 1 (repos.take TOP_N))
    rw [map_fst_enumFrom] at h1
    exact h1.trans (List.range'_sublist_right.mpr (List.length_take_le _ _))

theorem search_repos_ok_items (env : Env) (repos : List Repo)
    (h : search_repos env = .ok repos) : discoveredItems env = repos := by
  unfold search_repos at h
  unfold discoveredItems
  cases hgr : github_request_raw env.searchResp with
  | error e =>
    rw [hgr] at h
    cases e
    simp at h
  | ok b =>
    rw [hgr] at h
    cases hi : env.searchItems with
    | none => rw [hi] at h; simp at h
    | some items =>
      rw [hi] at h
      simp only [Except.ok.injEq] at h
      rw [h]
      rfl

theorem deliveredCount_le_length (env : Env) (l : List (Nat × Repo)) :
    deliveredCount (processCandidates env l) ≤ l.length := by
  have h := (deliveredRanks_processCandidates env l).length_le
  simpa [deliveredCount] using h

theorem processOne_deliver_docNonAbsent (env : Env) (rank : Nat) (repo : Repo)
    (p : String) (h : processOne env rank repo = .deliver p) :
    docNonAbsent env repo = true := by
  cases hs : pySplit repo.full_name '/' with
  | nil => simp [processOne, hs] at h
  | cons a as =>
    cases as with
    | nil => simp [processOne, hs] at h
    | cons b bs =>
      cases bs with
      | cons c cs => simp [processOne, hs] at h
      | nil =>
        simp only [processOne, hs] at h
        simp only [docNonAbsent, hs]
        cases hf : fetch_readme env a b with
        | none => rw [hf] at h; simp [pyFalsy] at h
        | some s => simp

theorem deliveredCount_le_countP (env : Env) (l : List (Nat × Repo)) :
    deliveredCount (processCandidates env l) ≤
      l.countP (fun q => docNonAbsent env q.2) := by
  induction l with
  | nil => simp [processCandidates, deliveredCount, deliveredRanks]
  | cons hd tl ih =>
    obtain ⟨rank, repo⟩ := hd
    simp only [deliveredCount, deliveredRanks] at ih
    cases hstep : processOne env rank repo with
    | skip =>
      rw [processCandidates_cons_skip _ _ _ _ hstep]
      simp only [deliveredCount, deliveredRanks, List.filterMap_cons,
        List.countP_cons]
      exact ih.trans (by split <;> omega)
    | deliver p =>
      rw [processCandidates_cons_deliver _ _ _ _ _ hstep]
      have hna := processOne_deliver_docNonAbsent env rank repo p hstep
      simp only [deliveredCount, deliveredRanks, List.filterMap_cons,
        List.countP_cons, hna, List.length_cons, if_true]
      omega
    | fatal e =>
      rw [processCandidates_cons_fatal _ _ _ _ _ hstep]
      simp [deliveredCount, deliveredRanks]

theorem countP_enumFrom (p : Repo → Bool) (n : Nat) (l : List Repo) :
    (List.enumFrom n l).countP (fun q => p q.2) = l.countP p := by
  induction l generalizing n with
  | nil => rfl
  | cons x xs ih => simp [List.countP_cons, ih]

/-- Claim C6: for every page size > 0 with TOP_N ≤ page size (and the
provider honoring the page size), the number of delivery attempts in a
run is at most TOP_N and at most the number of discovered candidates
whose documentation is non-absent. -/
theorem delivery_count_bounds (env : Env) (page_size : Nat)
    (hp : 0 < page_size) (ht : TOP_N ≤ page_size)
    (hlen : (discoveredItems env).length ≤ page_size) :
    deliveredCount (main env) ≤ TOP_N ∧
    deliveredCount (main env) ≤
      nonAbsentCount env (discoveredItems env) := by
  unfold main
  cases h : search_repos env with
  | error e => simp [deliveredCount, deliveredRanks]
  | ok repos =>
    have hitems : discoveredItems env = repos := search_repos_ok_items env repos h
    constructor
    · have h1 := deliveredCount_le_length env
        (List.enumFrom 1 (repos.take TOP_N))
      rw [List.enumFrom_length] at h1
      exact h1.trans (List.length_take_le _ _)
    · have h2 := deliveredCount_le_countP env
        (List.enumFrom 1 (repos.take TOP_N))
      rw [countP_enumFrom] at h2
      rw [hitems]
      simp only [nonAbsentCount]
      exact h2.trans ((List.take_sublist _ _).countP_le _)

/-- Two healthy candidates, both with documentation. -/
def envTwoCandidates : Env :=
  ⟨⟨200, "ok"⟩,
   some [⟨"a/x", 500, some "d1", "u1"⟩, ⟨"b/y", 300, some "d2", "u2"⟩],
   fun _ _ => ⟨200, "D"⟩, fun _ => .ok (some "S")⟩

/-- Witness for C6 at page size 5 with two discovered candidates. -/
theorem delivery_count_bounds_witness :
    deliveredCount (main envTwoCandidates) ≤ TOP_N ∧
    deliveredCount (main envTwoCandidates) ≤
      nonAbsentCount envTwoCandidates (discoveredItems envTwoCandidates) :=
  delivery_count_bounds envTwoCandidates 5 (by decide) (by decide) (by decide)

end RikochiExplore
